import Mathlib

/-!
Shallow embedding of `fogros2/aws.py`: the provisioning lifecycle
orchestrator (`CloudInstance`, `RemoteMachine`, `AWS`).  External
collaborators (boto3, the SCP client, the zip packager) are modelled as an
oracle environment `Env`; every externally visible action is recorded in a
trace of `Event`s.  Python exceptions are modelled by the `Outcome` type,
which carries the partial object state alongside a propagating error, and
possible non-termination of the address-poll loop is modelled with fuel.
-/

namespace FogROS2

/-- A JSON value as produced by `json.dump` of the info dictionary. -/
inductive JVal where
  | str (s : String)
  | num (n : Int)
  | null
  deriving DecidableEq

/-- `None`-or-string attribute rendered into JSON. -/
def optStr : Option String → JVal
  | some s => JVal.str s
  | none => JVal.null

/-- Contents written to a local file: the private key text or the info JSON object. -/
inductive FileContent where
  | text (s : String)
  | json (d : List (String × JVal))
  deriving DecidableEq

/-- Externally visible actions performed by the orchestrator, in order. -/
inductive Event where
  | assignUniqueName (v : String)
  | makeDirs (path : String)
  | botoDescribeVpcs
  | botoCreateSecurityGroup (name vpc : String)
  | botoAuthorizeIngress (gid : String)
  | botoCreateKeyPair (name : String)
  | botoCreateInstances (ami itype : String) (disk : Nat) (key : String) (sgids : Option (List String))
  | waitUntilRunning
  | scpConnect (ip key : Option String)
  | execCmd (cmd : String)
  | sendFile (src dst : String)
  | makeZip (src dst : String)
  | fsWrite (path : String) (content : FileContent)
  | setReady (b : Bool)
  deriving DecidableEq

/-- Python exceptions that can propagate out of the modelled code. -/
inductive PyError where
  | nameError (n : String)
  | clientError (msg : String)
  | remoteExecutionError (cmd : String)
  | connectivityError
  | typeError (msg : String)
  | attributeError (n : String)
  | notImplementedError (msg : String)
  deriving DecidableEq

/-- Result of running a pipeline fragment: normal return, a propagating
exception together with the partial object state left behind, or
divergence (the unbounded busy-poll never finding an address). -/
inductive Outcome (σ : Type) where
  | ok (s : σ)
  | err (e : PyError) (s : σ)
  | div
  deriving DecidableEq

/-- Whether an outcome is a normal return. -/
def Outcome.isOk {σ : Type} : Outcome σ → Bool
  | .ok _ => true
  | _ => false

/-- The object state an outcome leaves behind, when there is one. -/
def Outcome.state? {σ : Type} : Outcome σ → Option σ
  | .ok s => some s
  | .err _ s => some s
  | .div => none

/-- Sequencing of traced, fallible steps: run the continuation only on
normal return, concatenating traces; an exception or divergence aborts. -/
def bindO {σ : Type} (r : List Event × Outcome σ) (k : σ → List Event × Outcome σ) :
    List Event × Outcome σ :=
  match r with
  | (tr, .ok s) => ((tr ++ (k s).1 : List Event), (k s).2)
  | (tr, .err e s) => (tr, .err e s)
  | (tr, .div) => (tr, .div)

/-- Oracle for all external collaborator calls made during one run:
boto3 results, the i-th read of `instance.public_ip_address`, a fuel
bound standing for how long we are willing to unroll the address loop,
and success/failure of SCP operations.  Remote-session semantics
(`connect` / `execute_cmd` / `send_file`) are modelled from the spec,
since `scp.py` is not part of the provided source: `execute` fails with
`RemoteExecutionError` on nonzero status, `connect` with a
connectivity error. -/
structure Env where
  vpcs : List String
  createSecurityGroupR : Except String String
  authorizeIngressR : Except String Unit
  createKeyPairR : Except String String
  createInstancesR : Except String String
  publicIpAt : Nat → Option String
  pollFuel : Nat
  connectOk : Bool
  execOk : String → Bool
  sendOk : String → String → Bool

/-- The attributes set by `CloudInstance.__init__` (the mutex around
`ready_state` collapses in this sequential embedding; `scp` is modelled
by the `scp_connected` flag). -/
structure CloudInstanceState where
  public_ip : Option String
  ros_workspace : String
  ssh_key_path : Option String
  unique_name : String
  working_dir : String
  ready_state : Bool
  scp_connected : Bool
  deriving DecidableEq

/-- `CloudInstance.__init__(ros_workspace, working_dir_base)`; the result of
`random.randint(10, 1000)` is the explicit parameter `rand`. -/
def CloudInstance.init (rand : Nat) (ros_workspace working_dir_base : String) :
    CloudInstanceState × List Event :=
  let unique_name := toString rand
  let working_dir := working_dir_base ++ "/" ++ unique_name ++ "/"
  ({ public_ip := none
     ros_workspace := ros_workspace
     ssh_key_path := none
     unique_name := unique_name
     working_dir := working_dir
     ready_state := false
     scp_connected := false },
   [Event.assignUniqueName unique_name, Event.makeDirs working_dir])

/-- The dictionary built by `CloudInstance.info` (insertion order). -/
def CloudInstance.infoDict (s : CloudInstanceState) : List (String × JVal) :=
  [("name", JVal.str s.unique_name),
   ("ros_workspace", JVal.str s.ros_workspace),
   ("working_dir", JVal.str s.working_dir),
   ("ssh_key_path", optStr s.ssh_key_path),
   ("public_ip", optStr s.public_ip)]

/-- `CloudInstance.info(flush_to_disk)`: build the dictionary and, when
flushing, write it to `<working_dir>info`. -/
def CloudInstance.info (flush_to_disk : Bool) (s : CloudInstanceState) :
    List Event × List (String × JVal) :=
  let d := CloudInstance.infoDict s
  ((if flush_to_disk then [Event.fsWrite (s.working_dir ++ "info") (FileContent.json d)] else []), d)

/-- `CloudInstance.get_ready_state`: acquire the lock, read, release. -/
def CloudInstance.get_ready_state (s : CloudInstanceState) : Bool :=
  s.ready_state

/-- `CloudInstance.set_ready_state(ready)`: acquire the lock, assign,
release, and return the assigned value. -/
def CloudInstance.set_ready_state (ready : Bool) (s : CloudInstanceState) :
    Bool × CloudInstanceState :=
  (ready, { s with ready_state := ready })

/-- `CloudInstance.create` on the superclass raises `NotImplementedError`. -/
def CloudInstance.create (s : CloudInstanceState) : List Event × Outcome CloudInstanceState :=
  ([], Outcome.err (PyError.notImplementedError "Cloud SuperClass not implemented") s)

/-- `self.scp.execute_cmd(cmd)`.  Modelled from the spec: `scp.py` is not in
the provided source; per §6 `execute(commandString)` fails with
`RemoteExecutionError` on nonzero exit status. -/
def execCmdStep (env : Env) (cmd : String) (s : CloudInstanceState) :
    List Event × Outcome CloudInstanceState :=
  ([Event.execCmd cmd],
   if env.execOk cmd then Outcome.ok s else Outcome.err (PyError.remoteExecutionError cmd) s)

/-- `self.scp.send_file(src, dst)`.  Modelled from the spec: `scp.py` is not
in the provided source; per §6 `sendFile(localPath, remotePath)` may fail. -/
def sendFileStep (env : Env) (src dst : String) (s : CloudInstanceState) :
    List Event × Outcome CloudInstanceState :=
  ([Event.sendFile src dst],
   if env.sendOk src dst then Outcome.ok s else Outcome.err (PyError.remoteExecutionError ("send " ++ src)) s)

/-- `CloudInstance.connect`: open the SCP client on `public_ip` and
`ssh_key_path`.  Modelled from the spec for the session itself (`scp.py`
absent): session establishment failure is a connectivity error. -/
def CloudInstance.connect (env : Env) (s : CloudInstanceState) :
    List Event × Outcome CloudInstanceState :=
  ([Event.scpConnect s.public_ip s.ssh_key_path],
   if env.connectOk then Outcome.ok { s with scp_connected := true }
   else Outcome.err PyError.connectivityError s)

/-- `CloudInstance.install_cloud_dependencies`: the two fixed install commands. -/
def CloudInstance.install_cloud_dependencies (env : Env) (s : CloudInstanceState) :
    List Event × Outcome CloudInstanceState :=
  bindO (execCmdStep env "sudo apt install -y wireguard unzip" s) (fun s1 =>
    execCmdStep env "sudo pip3 install wgconfig boto3 paramiko scp" s1)

/-- `CloudInstance.push_ros_workspace`: zip the workspace (the packager
`make_zip_file` is modelled from the spec, `util.py` being absent from the
source), remove the stale remote workspace, transfer, extract. -/
def CloudInstance.push_ros_workspace (env : Env) (s : CloudInstanceState) :
    List Event × Outcome CloudInstanceState :=
  bindO ([Event.makeZip s.ros_workspace "/tmp/ros_workspace"], Outcome.ok s) (fun s1 =>
  bindO (execCmdStep env "echo removing old workspace" s1) (fun s2 =>
  bindO (execCmdStep env "rm -rf ros_workspace.zip ros2_ws fog_ws" s2) (fun s3 =>
  bindO (sendFileStep env "/tmp/ros_workspace.zip" "/home/ubuntu/" s3) (fun s4 =>
  bindO (execCmdStep env "unzip -q /home/ubuntu/ros_workspace.zip" s4) (fun s5 =>
  execCmdStep env "echo successfully extracted new workspace" s5)))))

/-- `CloudInstance.push_and_setup_vpn`: transfer the wireguard config and
install + activate the overlay interface. -/
def CloudInstance.push_and_setup_vpn (env : Env) (s : CloudInstanceState) :
    List Event × Outcome CloudInstanceState :=
  bindO (sendFileStep env ("/tmp/fogros-cloud.conf" ++ s.unique_name) "/tmp/fogros-aws.conf" s) (fun s1 =>
    execCmdStep env "sudo cp /tmp/fogros-aws.conf /etc/wireguard/wg0.conf && sudo chmod 600 /etc/wireguard/wg0.conf && sudo wg-quick up wg0" s1)

/-- `CloudInstance.configure_DDS`: generate the cyclone config (builder
modelled from the spec, `dds_config_builder.py` absent) and transfer it. -/
def CloudInstance.configure_DDS (env : Env) (s : CloudInstanceState) :
    List Event × Outcome CloudInstanceState :=
  bindO ([Event.fsWrite "/tmp/cyclonedds.xml" (FileContent.text "cyclone config")], Outcome.ok s)
    (fun s1 => sendFileStep env "/tmp/cyclonedds.xml" "~/cyclonedds.xml" s1)

/-- `RemoteMachine.__init__(ip, ssh_key_path)`: runs the base constructor
with its default arguments (no workspace parameters are forwarded), then
executes `self.ip = public_ip`, whose right-hand side is an undefined
name — the constructor raises `NameError` before `ssh_key_path`, the
`REMOTE` unique name, or the ready flag are ever set. -/
def RemoteMachine.init (ip ssh_key_path : String) (rand : Nat) :
    List Event × Outcome CloudInstanceState :=
  let p := CloudInstance.init rand "/home/root/fog_ws" "/tmp/fogros/"
  (p.2, Outcome.err (PyError.nameError "public_ip") p.1)

/-- The attributes added by `AWS.__init__` on top of the base class
(the boto3 resource handles are represented by the oracle `Env`;
`ec2_instance` holds the created instance's id once set). -/
structure AWSState where
  base : CloudInstanceState
  region : String
  ec2_instance_type : String
  ec2_instance_disk_size : Nat
  aws_ami_image : String
  ec2_security_group : String
  ec2_key_name : String
  ec2_instance : Option String
  ssh_key : Option String
  ec2_security_group_ids : Option (List String)
  deriving DecidableEq

/-- Apply a base-class method to the `base` portion of an `AWSState`. -/
def liftBase (f : CloudInstanceState → List Event × Outcome CloudInstanceState)
    (s : AWSState) : List Event × Outcome AWSState :=
  match f s.base with
  | (tr, .ok b) => (tr, .ok { s with base := b })
  | (tr, .err e b) => (tr, .err e { s with base := b })
  | (tr, .div) => (tr, .div)

/-- The attribute assignments of `AWS.__init__` before the final
`self.create()` call: the base constructor (with the two random draws
`rand1` for the base and `rand2` for the `AWS` name made explicit),
the cloud configuration, the re-assignment of `unique_name`, and the
names and paths derived from it.  Returns the state and the
construction trace. -/
def AWS.fields (rand1 rand2 : Nat) (region ec2_instance_type : String)
    (disk_size : Nat) (ami_image ros_workspace working_dir_base : String) :
    AWSState × List Event :=
  let p := CloudInstance.init rand1 ros_workspace working_dir_base
  let unique_name := "AWS" ++ toString rand2
  let ec2_key_name := "FogROSKEY" ++ unique_name
  let b := { p.1 with
             unique_name := unique_name
             ssh_key_path := some (p.1.working_dir ++ ec2_key_name ++ ".pem") }
  ({ base := b
     region := region
     ec2_instance_type := ec2_instance_type
     ec2_instance_disk_size := disk_size
     aws_ami_image := ami_image
     ec2_security_group := "FOGROS_SECURITY_GROUP" ++ unique_name
     ec2_key_name := ec2_key_name
     ec2_instance := none
     ssh_key := none
     ec2_security_group_ids := none },
   p.2 ++ [Event.assignUniqueName unique_name])

/-- `AWS.create_security_group`: `describe_vpcs`, then inside a `try`
block `create_security_group` and `authorize_security_group_ingress`.
The `except ClientError` clause names `ClientError`, which is never
imported in `aws.py`: when either boto call raises, looking the handler
class up raises `NameError` (and the unbound local
`ec2_security_group_ids` in the code after the `try` would likewise be
a `NameError`), so the attribute `ec2_security_group_ids` is assigned
only on full success. -/
def AWS.create_security_group (env : Env) (s : AWSState) :
    List Event × Outcome AWSState :=
  let vpc_id := (env.vpcs.headD "")
  match env.createSecurityGroupR with
  | .error _ =>
      ([Event.botoDescribeVpcs, Event.botoCreateSecurityGroup s.ec2_security_group vpc_id],
       Outcome.err (PyError.nameError "ClientError") s)
  | .ok security_group_id =>
      match env.authorizeIngressR with
      | .error _ =>
          ([Event.botoDescribeVpcs, Event.botoCreateSecurityGroup s.ec2_security_group vpc_id,
            Event.botoAuthorizeIngress security_group_id],
           Outcome.err (PyError.nameError "ClientError") s)
      | .ok _ =>
          ([Event.botoDescribeVpcs, Event.botoCreateSecurityGroup s.ec2_security_group vpc_id,
            Event.botoAuthorizeIngress security_group_id],
           Outcome.ok { s with ec2_security_group_ids := some [security_group_id] })

/-- `AWS.generate_key_pair`: `create_key_pair`, write the private key
material to `ssh_key_path`, record it in `ssh_key`. -/
def AWS.generate_key_pair (env : Env) (s : AWSState) :
    List Event × Outcome AWSState :=
  match env.createKeyPairR with
  | .error msg =>
      ([Event.botoCreateKeyPair s.ec2_key_name], Outcome.err (PyError.clientError msg) s)
  | .ok ec2_priv_key =>
      match s.base.ssh_key_path with
      | none =>
          ([Event.botoCreateKeyPair s.ec2_key_name],
           Outcome.err (PyError.typeError "open ssh_key_path None") s)
      | some path =>
          ([Event.botoCreateKeyPair s.ec2_key_name,
            Event.fsWrite path (FileContent.text ec2_priv_key)],
           Outcome.ok { s with ssh_key := some ec2_priv_key })

/-- The address-poll loop of `AWS.create_ec2_instance`:
`self.public_ip = instance.public_ip_address` followed by
`while not self.public_ip: instance.reload(); self.public_ip = ...`.
`f i` is the value of the i-th read of `instance.public_ip_address`;
the loop has no iteration bound in the source, so it is unrolled on
fuel, `none` standing for not having terminated within the fuel.
On success it returns the number of reads performed and the address. -/
def pollIp (f : Nat → Option String) : Nat → Option (Nat × String)
  | 0 => none
  | fuel + 1 =>
      match f 0 with
      | some ip => some (1, ip)
      | none =>
          match pollIp (fun k => f (k + 1)) fuel with
          | some (n, ip) => some (n + 1, ip)
          | none => none

/-- `AWS.create_ec2_instance`: `create_instances` with the configured
image/type/disk, key name and security-group ids, `wait_until_running`,
then the unbounded address poll; on success `ec2_instance` and
`public_ip` are set. -/
def AWS.create_ec2_instance (env : Env) (s : AWSState) :
    List Event × Outcome AWSState :=
  let ev := [Event.botoCreateInstances s.aws_ami_image s.ec2_instance_type
               s.ec2_instance_disk_size s.ec2_key_name s.ec2_security_group_ids]
  match env.createInstancesR with
  | .error msg => (ev, Outcome.err (PyError.clientError msg) s)
  | .ok instance_id =>
      match pollIp env.publicIpAt env.pollFuel with
      | none => (ev ++ [Event.waitUntilRunning], Outcome.div)
      | some r =>
          (ev ++ [Event.waitUntilRunning],
           Outcome.ok { s with
                        ec2_instance := some instance_id
                        base := { s.base with public_ip := some r.2 } })

/-- `AWS.info(flush_to_disk)`: run the base-class `info` (which already
writes the five-key object when flushing), extend the dictionary with
the five cloud keys — reading `self.ec2_instance.instance_id`, an
`AttributeError` on `None` when no instance was created — and write the
full object to the same `<working_dir>info` path. -/
def AWS.info (flush_to_disk : Bool) (s : AWSState) :
    List Event × Outcome (List (String × JVal)) :=
  let p := CloudInstance.info flush_to_disk s.base
  match s.ec2_instance with
  | none => (p.1, Outcome.err (PyError.attributeError "instance_id") [])
  | some instance_id =>
      let d := p.2 ++
        [("ec2_region", JVal.str s.region),
         ("ec2_instance_type", JVal.str s.ec2_instance_type),
         ("disk_size", JVal.num (s.ec2_instance_disk_size : Int)),
         ("aws_ami_image", JVal.str s.aws_ami_image),
         ("ec2_instance_id", JVal.str instance_id)]
      ((p.1 ++ (if flush_to_disk then
          [Event.fsWrite (s.base.working_dir ++ "info") (FileContent.json d)] else [])),
       Outcome.ok d)

/-- The `self.info(flush_to_disk=True)` statement inside `AWS.create`:
the returned dictionary is discarded, only the file writes and a
possible exception matter for the pipeline. -/
def AWS.infoStep (s : AWSState) : List Event × Outcome AWSState :=
  match AWS.info true s with
  | (tr, .ok _) => (tr, Outcome.ok s)
  | (tr, .err e _) => (tr, Outcome.err e s)
  | (tr, .div) => (tr, Outcome.div)

/-- `AWS.create`: the provisioning pipeline in source order — security
group, key pair, EC2 instance (with running-wait and address poll), SCP
connect, dependency install, workspace push, info flush, readiness set.
`push_to_cloud_nodes` is commented out in the source and the VPN / DDS /
launch methods are never invoked here. -/
def AWS.create (env : Env) (s : AWSState) : List Event × Outcome AWSState :=
  bindO (AWS.create_security_group env s) (fun s1 =>
  bindO (AWS.generate_key_pair env s1) (fun s2 =>
  bindO (AWS.create_ec2_instance env s2) (fun s3 =>
  bindO (liftBase (CloudInstance.connect env) s3) (fun s4 =>
  bindO (liftBase (CloudInstance.install_cloud_dependencies env) s4) (fun s5 =>
  bindO (liftBase (CloudInstance.push_ros_workspace env) s5) (fun s6 =>
  bindO (AWS.infoStep s6) (fun s7 =>
  ([Event.setReady true],
   Outcome.ok { s7 with base := (CloudInstance.set_ready_state true s7.base).2 }))))))))

/-- `AWS.__init__`: assign all attributes, then — as the constructor's
final statement — run `self.create()`.  A failure of any pipeline step
propagates out of the constructor, leaving the partially provisioned
state behind. -/
def AWS.init (env : Env) (rand1 rand2 : Nat) (region ec2_instance_type : String)
    (disk_size : Nat) (ami_image ros_workspace working_dir_base : String) :
    List Event × Outcome AWSState :=
  let p := AWS.fields rand1 rand2 region ec2_instance_type disk_size ami_image
             ros_workspace working_dir_base
  bindO (p.2, Outcome.ok p.1) (AWS.create env)

/-- A concrete oracle on which every external call succeeds and the very
first address read is already non-null. -/
def env0 : Env :=
  { vpcs := ["vpc-0"]
    createSecurityGroupR := Except.ok "sg-1"
    authorizeIngressR := Except.ok ()
    createKeyPairR := Except.ok "PRIVATEKEY"
    createInstancesR := Except.ok "i-123"
    publicIpAt := fun _ => some "3.3.3.3"
    pollFuel := 1
    connectOk := true
    execOk := fun _ => true
    sendOk := fun _ _ => true }

/-- A concrete freshly constructed `AWS` state (random draws 42 and 7,
default construction arguments). -/
def s0 : AWSState :=
  (AWS.fields 42 7 "us-west-1" "t2.micro" 30 "ami-08b3b42af12192fe6"
    "/home/root/fog_ws" "/tmp/fogros/").1

theorem bindO_eq_ok {σ : Type} {r : List Event × Outcome σ} {k : σ → List Event × Outcome σ}
    {tr : List Event} {s' : σ} (h : bindO r k = (tr, Outcome.ok s')) :
    ∃ tr1 s1 tr2, r = (tr1, Outcome.ok s1) ∧ k s1 = (tr2, Outcome.ok s') ∧ tr = tr1 ++ tr2 := by
  obtain ⟨tr1, o⟩ := r
  cases o with
  | ok s1 =>
      simp only [bindO, Prod.mk.injEq] at h
      refine ⟨tr1, s1, (k s1).1, rfl, ?_, h.1.symm⟩
      have hk : k s1 = ((k s1).1, (k s1).2) := rfl
      rw [hk, h.2]
  | err e s1 => simp only [bindO, Prod.mk.injEq] at h; exact absurd h.2 (by simp)
  | div => simp only [bindO, Prod.mk.injEq] at h; exact absurd h.2 (by simp)

theorem pollIp_succ_of_head_none {f : Nat → Option String} {fuel : Nat} (h : f 0 = none) :
    pollIp f (fuel + 1) =
      match pollIp (fun k => f (k + 1)) fuel with
      | some (n, ip) => some (n + 1, ip)
      | none => none := by
  simp [pollIp, h]

theorem pollIp_exact {n : Nat} : ∀ {f : Nat → Option String} {ip : String} {fuel : Nat},
    (∀ k, k < n → f k = none) → f n = some ip → n + 1 ≤ fuel →
    pollIp f fuel = some (n + 1, ip) := by
  induction n with
  | zero =>
      intro f ip fuel _ h2 h3
      obtain ⟨fuel', rfl⟩ := Nat.exists_eq_add_of_le h3
      rw [Nat.add_comm 1 fuel']
      simp [pollIp, h2]
  | succ m ih =>
      intro f ip fuel h1 h2 h3
      obtain ⟨fuel', rfl⟩ := Nat.exists_eq_add_of_le h3
      rw [Nat.add_comm (m + 1 + 1) fuel']
      have h0 : f 0 = none := h1 0 (Nat.succ_pos m)
      rw [show fuel' + (m + 1 + 1) = (fuel' + (m + 1)) + 1 by omega]
      rw [pollIp_succ_of_head_none h0]
      have := @ih (fun k => f (k + 1)) ip (fuel' + (m + 1))
        (fun k hk => h1 (k + 1) (by omega)) h2 (by omega)
      rw [this]

theorem pollIp_some_inv : ∀ {fuel : Nat} {f : Nat → Option String} {m : Nat} {ip : String},
    pollIp f fuel = some (m, ip) →
    1 ≤ m ∧ f (m - 1) = some ip ∧ ∀ k, k < m - 1 → f k = none := by
  intro fuel
  induction fuel with
  | zero => intro f m ip h; simp [pollIp] at h
  | succ fuel ih =>
      intro f m ip h
      unfold pollIp at h
      cases h0 : f 0 with
      | some ip0 =>
          rw [h0] at h
          simp at h
          obtain ⟨hm, hip⟩ := h
          subst hip
          refine ⟨by omega, ?_, ?_⟩
          · rw [← hm]; simpa using h0
          · intro k hk; exfalso; omega
      | none =>
          rw [h0] at h
          cases hrec : pollIp (fun k => f (k + 1)) fuel with
          | none => rw [hrec] at h; simp at h
          | some p =>
              obtain ⟨m', ip'⟩ := p
              rw [hrec] at h
              simp at h
              obtain ⟨hm, hip⟩ := h
              obtain ⟨hm1, hfm, hnone⟩ := ih hrec
              subst hip
              refine ⟨by omega, ?_, ?_⟩
              · have : m - 1 = (m' - 1) + 1 := by omega
                rw [this]; exact hfm
              · intro k hk
                cases k with
                | zero => exact h0
                | succ k' => exact hnone k' (by omega)

theorem pollIp_none_of_all_none {f : Nat → Option String} (h : ∀ k, f k = none) :
    ∀ fuel, pollIp f fuel = none := by
  intro fuel
  induction fuel generalizing f with
  | zero => simp [pollIp]
  | succ fuel ih => simp [pollIp, h 0, @ih (fun k => f (k + 1)) (fun k => h (k + 1))]

/-- The five-key info object flushed by the base-class `info` during a
successful `AWS.create`, expressed against the pre-`create` state and the
polled address. -/
def infoDict5 (s : AWSState) (ip : String) : List (String × JVal) :=
  [("name", JVal.str s.base.unique_name),
   ("ros_workspace", JVal.str s.base.ros_workspace),
   ("working_dir", JVal.str s.base.working_dir),
   ("ssh_key_path", optStr s.base.ssh_key_path),
   ("public_ip", JVal.str ip)]

/-- The full ten-key info object flushed by `AWS.info` during a successful
`AWS.create`. -/
def infoDict10 (s : AWSState) (ip iid : String) : List (String × JVal) :=
  infoDict5 s ip ++
  [("ec2_region", JVal.str s.region),
   ("ec2_instance_type", JVal.str s.ec2_instance_type),
   ("disk_size", JVal.num (s.ec2_instance_disk_size : Int)),
   ("aws_ami_image", JVal.str s.aws_ami_image),
   ("ec2_instance_id", JVal.str iid)]

/-- The full event trace of a successful `AWS.create` run, in terms of the
pre-`create` state and the values delivered by the external calls. -/
def expectedCreateTrace (s : AWSState) (vpc gid key iid ip kp : String) : List Event :=
  [Event.botoDescribeVpcs,
   Event.botoCreateSecurityGroup s.ec2_security_group vpc,
   Event.botoAuthorizeIngress gid,
   Event.botoCreateKeyPair s.ec2_key_name,
   Event.fsWrite kp (FileContent.text key),
   Event.botoCreateInstances s.aws_ami_image s.ec2_instance_type
     s.ec2_instance_disk_size s.ec2_key_name (some [gid]),
   Event.waitUntilRunning,
   Event.scpConnect (some ip) s.base.ssh_key_path,
   Event.execCmd "sudo apt install -y wireguard unzip",
   Event.execCmd "sudo pip3 install wgconfig boto3 paramiko scp",
   Event.makeZip s.base.ros_workspace "/tmp/ros_workspace",
   Event.execCmd "echo removing old workspace",
   Event.execCmd "rm -rf ros_workspace.zip ros2_ws fog_ws",
   Event.sendFile "/tmp/ros_workspace.zip" "/home/ubuntu/",
   Event.execCmd "unzip -q /home/ubuntu/ros_workspace.zip",
   Event.execCmd "echo successfully extracted new workspace",
   Event.fsWrite (s.base.working_dir ++ "info") (FileContent.json (infoDict5 s ip)),
   Event.fsWrite (s.base.working_dir ++ "info") (FileContent.json (infoDict10 s ip iid)),
   Event.setReady true]

/-- The state left behind by a successful `AWS.create` run. -/
def finalStateOk (s : AWSState) (gid key iid ip : String) : AWSState :=
  { s with
    ec2_security_group_ids := some [gid]
    ssh_key := some key
    ec2_instance := some iid
    base := { s.base with public_ip := some ip, scp_connected := true, ready_state := true } }

theorem create_security_group_ok {env : Env} {s : AWSState} {tr : List Event} {s' : AWSState}
    (h : AWS.create_security_group env s = (tr, Outcome.ok s')) :
    ∃ gid, env.createSecurityGroupR = Except.ok gid ∧
      tr = [Event.botoDescribeVpcs,
            Event.botoCreateSecurityGroup s.ec2_security_group (env.vpcs.headD ""),
            Event.botoAuthorizeIngress gid] ∧
      s' = { s with ec2_security_group_ids := some [gid] } := by
  unfold AWS.create_security_group at h
  cases hc : env.createSecurityGroupR with
  | error msg => rw [hc] at h; simp at h
  | ok gid =>
      rw [hc] at h
      cases ha : env.authorizeIngressR with
      | error msg => rw [ha] at h; simp at h
      | ok u =>
          rw [ha] at h
          simp only [Prod.mk.injEq, Outcome.ok.injEq] at h
          exact ⟨gid, rfl, h.1.symm, h.2.symm⟩

theorem generate_key_pair_ok {env : Env} {s : AWSState} {tr : List Event} {s' : AWSState}
    (h : AWS.generate_key_pair env s = (tr, Outcome.ok s')) :
    ∃ key kp, env.createKeyPairR = Except.ok key ∧ s.base.ssh_key_path = some kp ∧
      tr = [Event.botoCreateKeyPair s.ec2_key_name, Event.fsWrite kp (FileContent.text key)] ∧
      s' = { s with ssh_key := some key } := by
  unfold AWS.generate_key_pair at h
  cases hc : env.createKeyPairR with
  | error msg => rw [hc] at h; simp at h
  | ok key =>
      rw [hc] at h
      cases hk : s.base.ssh_key_path with
      | none => rw [hk] at h; simp at h
      | some kp =>
          rw [hk] at h
          simp only [Prod.mk.injEq, Outcome.ok.injEq] at h
          exact ⟨key, kp, rfl, rfl, h.1.symm, h.2.symm⟩

theorem create_ec2_instance_ok {env : Env} {s : AWSState} {tr : List Event} {s' : AWSState}
    (h : AWS.create_ec2_instance env s = (tr, Outcome.ok s')) :
    ∃ iid n ip, env.createInstancesR = Except.ok iid ∧
      pollIp env.publicIpAt env.pollFuel = some (n, ip) ∧
      tr = [Event.botoCreateInstances s.aws_ami_image s.ec2_instance_type
              s.ec2_instance_disk_size s.ec2_key_name s.ec2_security_group_ids,
            Event.waitUntilRunning] ∧
      s' = { s with ec2_instance := some iid,
                    base := { s.base with public_ip := some ip } } := by
  unfold AWS.create_ec2_instance at h
  cases hc : env.createInstancesR with
  | error msg => rw [hc] at h; simp at h
  | ok iid =>
      rw [hc] at h
      cases hp : pollIp env.publicIpAt env.pollFuel with
      | none => rw [hp] at h; simp at h
      | some r =>
          obtain ⟨n, ip⟩ := r
          rw [hp] at h
          simp only [Prod.mk.injEq, Outcome.ok.injEq] at h
          exact ⟨iid, n, ip, rfl, rfl, h.1.symm, h.2.symm⟩

theorem connect_ok {env : Env} {s : AWSState} {tr : List Event} {s' : AWSState}
    (h : liftBase (CloudInstance.connect env) s = (tr, Outcome.ok s')) :
    env.connectOk = true ∧
      tr = [Event.scpConnect s.base.public_ip s.base.ssh_key_path] ∧
      s' = { s with base := { s.base with scp_connected := true } } := by
  unfold liftBase CloudInstance.connect at h
  cases hc : env.connectOk with
  | false => rw [hc] at h; simp at h
  | true =>
      rw [hc] at h
      simp only [if_true, Prod.mk.injEq, Outcome.ok.injEq] at h
      exact ⟨rfl, h.1.symm, h.2.symm⟩

theorem install_ok {env : Env} {s : AWSState} {tr : List Event} {s' : AWSState}
    (h : liftBase (CloudInstance.install_cloud_dependencies env) s = (tr, Outcome.ok s')) :
    tr = [Event.execCmd "sudo apt install -y wireguard unzip",
          Event.execCmd "sudo pip3 install wgconfig boto3 paramiko scp"] ∧ s' = s := by
  unfold liftBase CloudInstance.install_cloud_dependencies execCmdStep bindO at h
  cases h1 : env.execOk "sudo apt install -y wireguard unzip" with
  | false => rw [h1] at h; simp at h
  | true =>
      rw [h1] at h
      cases h2 : env.execOk "sudo pip3 install wgconfig boto3 paramiko scp" with
      | false => rw [h2] at h; simp at h
      | true =>
          rw [h2] at h
          simp only [if_true, Prod.mk.injEq, Outcome.ok.injEq] at h
          refine ⟨h.1.symm, ?_⟩
          rw [← h.2]

theorem push_ok {env : Env} {s : AWSState} {tr : List Event} {s' : AWSState}
    (h : liftBase (CloudInstance.push_ros_workspace env) s = (tr, Outcome.ok s')) :
    tr = [Event.makeZip s.base.ros_workspace "/tmp/ros_workspace",
          Event.execCmd "echo removing old workspace",
          Event.execCmd "rm -rf ros_workspace.zip ros2_ws fog_ws",
          Event.sendFile "/tmp/ros_workspace.zip" "/home/ubuntu/",
          Event.execCmd "unzip -q /home/ubuntu/ros_workspace.zip",
          Event.execCmd "echo successfully extracted new workspace"] ∧ s' = s := by
  unfold liftBase CloudInstance.push_ros_workspace execCmdStep sendFileStep bindO at h
  cases h1 : env.execOk "echo removing old workspace" with
  | false => rw [h1] at h; simp at h
  | true =>
  rw [h1] at h
  cases h2 : env.execOk "rm -rf ros_workspace.zip ros2_ws fog_ws" with
  | false => rw [h2] at h; simp at h
  | true =>
  rw [h2] at h
  cases h3 : env.sendOk "/tmp/ros_workspace.zip" "/home/ubuntu/" with
  | false => rw [h3] at h; simp at h
  | true =>
  rw [h3] at h
  cases h4 : env.execOk "unzip -q /home/ubuntu/ros_workspace.zip" with
  | false => rw [h4] at h; simp at h
  | true =>
  rw [h4] at h
  cases h5 : env.execOk "echo successfully extracted new workspace" with
  | false => rw [h5] at h; simp at h
  | true =>
  rw [h5] at h
  simp only [if_true, Prod.mk.injEq, Outcome.ok.injEq] at h
  refine ⟨?_, ?_⟩
  · rw [← h.1]; rfl
  · rw [← h.2]

theorem infoStep_ok {s : AWSState} {tr : List Event} {s' : AWSState}
    (h : AWS.infoStep s = (tr, Outcome.ok s')) :
    ∃ iid, s.ec2_instance = some iid ∧
      tr = [Event.fsWrite (s.base.working_dir ++ "info")
              (FileContent.json (CloudInstance.infoDict s.base)),
            Event.fsWrite (s.base.working_dir ++ "info")
              (FileContent.json (CloudInstance.infoDict s.base ++
                [("ec2_region", JVal.str s.region),
                 ("ec2_instance_type", JVal.str s.ec2_instance_type),
                 ("disk_size", JVal.num (s.ec2_instance_disk_size : Int)),
                 ("aws_ami_image", JVal.str s.aws_ami_image),
                 ("ec2_instance_id", JVal.str iid)]))] ∧
      s' = s := by
  unfold AWS.infoStep AWS.info CloudInstance.info at h
  cases hi : s.ec2_instance with
  | none => rw [hi] at h; simp at h
  | some iid =>
      rw [hi] at h
      simp only [if_true, Prod.mk.injEq, Outcome.ok.injEq] at h
      refine ⟨iid, rfl, ?_, ?_⟩
      · rw [← h.1]; rfl
      · rw [← h.2]

theorem create_ok_shape {env : Env} {s : AWSState} {tr : List Event} {s' : AWSState}
    (h : AWS.create env s = (tr, Outcome.ok s')) :
    ∃ gid key kp iid n ip,
      env.createSecurityGroupR = Except.ok gid ∧
      env.createKeyPairR = Except.ok key ∧
      s.base.ssh_key_path = some kp ∧
      env.createInstancesR = Except.ok iid ∧
      pollIp env.publicIpAt env.pollFuel = some (n, ip) ∧
      env.connectOk = true ∧
      tr = expectedCreateTrace s (env.vpcs.headD "") gid key iid ip kp ∧
      s' = finalStateOk s gid key iid ip := by
  unfold AWS.create at h
  obtain ⟨t1, s1, r1, h1, hA, htr1⟩ := bindO_eq_ok h
  clear h
  obtain ⟨gid, hg, ht1, hs1⟩ := create_security_group_ok h1
  clear h1
  obtain ⟨t2, s2, r2, h2, hB, htr2⟩ := bindO_eq_ok hA
  clear hA
  obtain ⟨key, kp, hk, hkp, ht2, hs2⟩ := generate_key_pair_ok h2
  clear h2
  obtain ⟨t3, s3, r3, h3, hC, htr3⟩ := bindO_eq_ok hB
  clear hB
  obtain ⟨iid, n, ip, hii, hp, ht3, hs3⟩ := create_ec2_instance_ok h3
  clear h3
  obtain ⟨t4, s4, r4, h4, hD, htr4⟩ := bindO_eq_ok hC
  clear hC
  obtain ⟨hcon, ht4, hs4⟩ := connect_ok h4
  clear h4
  obtain ⟨t5, s5, r5, h5, hE, htr5⟩ := bindO_eq_ok hD
  clear hD
  obtain ⟨ht5, hs5⟩ := install_ok h5
  clear h5
  obtain ⟨t6, s6, r6, h6, hF, htr6⟩ := bindO_eq_ok hE
  clear hE
  obtain ⟨ht6, hs6⟩ := push_ok h6
  clear h6
  obtain ⟨t7, s7, r7, h7, hG, htr7⟩ := bindO_eq_ok hF
  clear hF
  obtain ⟨iid2, hii2, ht7, hs7⟩ := infoStep_ok h7
  clear h7
  simp only [Prod.mk.injEq, Outcome.ok.injEq] at hG
  subst hs1 hs2 hs3 hs4 hs5 hs6 hs7
  subst ht1 ht2 ht3 ht4 ht5 ht6 ht7
  subst htr1 htr2 htr3 htr4 htr5 htr6 htr7
  have hiid2 : iid = iid2 := by simpa using hii2
  subst hiid2
  refine ⟨gid, key, kp, iid, n, ip, hg, hk, hkp, hii, hp, hcon, ?_, ?_⟩
  · simp [expectedCreateTrace, infoDict5, infoDict10, CloudInstance.infoDict,
      CloudInstance.set_ready_state, optStr, ← hG.1, hkp]
  · rw [← hG.2]
    simp [finalStateOk, CloudInstance.set_ready_state]

/-- Recognizes ReadinessGate writes in a trace. -/
def isSetReadyEv : Event → Bool
  | .setReady _ => true
  | _ => false

/-- Recognizes `unique_name` assignments in a trace. -/
def isAssignEv : Event → Bool
  | .assignUniqueName _ => true
  | _ => false

/-- Pipeline action events: everything except gate writes and
`unique_name` assignments. -/
def isPipeActEv : Event → Bool
  | .setReady _ => false
  | .assignUniqueName _ => false
  | _ => true

theorem filter_setReady_nil_of_acts {tr : List Event}
    (h : ∀ e ∈ tr, isPipeActEv e = true) : tr.filter isSetReadyEv = [] := by
  rw [List.filter_eq_nil_iff]
  intro a ha
  have := h a ha
  cases a <;> simp_all [isPipeActEv, isSetReadyEv]

theorem filter_assign_nil_of_acts {tr : List Event}
    (h : ∀ e ∈ tr, isPipeActEv e = true) : tr.filter isAssignEv = [] := by
  rw [List.filter_eq_nil_iff]
  intro a ha
  have := h a ha
  cases a <;> simp_all [isPipeActEv, isAssignEv]

theorem bindO_acts {σ : Type} {r : List Event × Outcome σ} {k : σ → List Event × Outcome σ}
    (hr : ∀ e ∈ r.1, isPipeActEv e = true)
    (hk : ∀ s, ∀ e ∈ ((k s).1), isPipeActEv e = true) :
    ∀ e ∈ ((bindO r k).1), isPipeActEv e = true := by
  obtain ⟨tr, o⟩ := r
  cases o with
  | ok s =>
      intro e he
      simp only [bindO, List.mem_append] at he
      rcases he with he | he
      · exact hr e he
      · exact hk s e he
  | err e' s => exact hr
  | div => exact hr

theorem csg_acts (env : Env) (s : AWSState) :
    ∀ e ∈ ((AWS.create_security_group env s).1), isPipeActEv e = true := by
  unfold AWS.create_security_group
  cases env.createSecurityGroupR with
  | error msg => simp [isPipeActEv]
  | ok gid => cases env.authorizeIngressR <;> simp [isPipeActEv]

theorem gkp_acts (env : Env) (s : AWSState) :
    ∀ e ∈ ((AWS.generate_key_pair env s).1), isPipeActEv e = true := by
  unfold AWS.generate_key_pair
  cases env.createKeyPairR with
  | error msg => simp [isPipeActEv]
  | ok key => cases s.base.ssh_key_path <;> simp [isPipeActEv]

theorem cei_acts (env : Env) (s : AWSState) :
    ∀ e ∈ ((AWS.create_ec2_instance env s).1), isPipeActEv e = true := by
  unfold AWS.create_ec2_instance
  cases env.createInstancesR with
  | error msg => simp [isPipeActEv]
  | ok iid => cases pollIp env.publicIpAt env.pollFuel <;> simp [isPipeActEv]

theorem connect_acts (env : Env) (s : AWSState) :
    ∀ e ∈ ((liftBase (CloudInstance.connect env) s).1), isPipeActEv e = true := by
  unfold liftBase CloudInstance.connect
  cases env.connectOk <;> simp [isPipeActEv]

theorem install_acts (env : Env) (s : AWSState) :
    ∀ e ∈ ((liftBase (CloudInstance.install_cloud_dependencies env) s).1), isPipeActEv e = true := by
  unfold liftBase CloudInstance.install_cloud_dependencies execCmdStep bindO
  cases env.execOk "sudo apt install -y wireguard unzip" <;>
    cases env.execOk "sudo pip3 install wgconfig boto3 paramiko scp" <;>
      simp [isPipeActEv]

theorem push_acts (env : Env) (s : AWSState) :
    ∀ e ∈ ((liftBase (CloudInstance.push_ros_workspace env) s).1), isPipeActEv e = true := by
  unfold liftBase CloudInstance.push_ros_workspace execCmdStep sendFileStep bindO
  cases env.execOk "echo removing old workspace" <;>
    cases env.execOk "rm -rf ros_workspace.zip ros2_ws fog_ws" <;>
      cases env.sendOk "/tmp/ros_workspace.zip" "/home/ubuntu/" <;>
        cases env.execOk "unzip -q /home/ubuntu/ros_workspace.zip" <;>
          cases env.execOk "echo successfully extracted new workspace" <;>
            simp [isPipeActEv]

theorem infoStep_acts (s : AWSState) :
    ∀ e ∈ ((AWS.infoStep s).1), isPipeActEv e = true := by
  unfold AWS.infoStep AWS.info CloudInstance.info
  cases s.ec2_instance <;> simp [isPipeActEv]

theorem bindO_filter_nil {σ : Type} {p : Event → Bool} (x : Event)
    {r : List Event × Outcome σ} {k : σ → List Event × Outcome σ}
    (hr : r.1.filter p = [])
    (hk : ∀ s, ((k s).1).filter p = [] ∨ ((k s).1).filter p = [x]) :
    ((bindO r k).1).filter p = [] ∨ ((bindO r k).1).filter p = [x] := by
  obtain ⟨tr, o⟩ := r
  cases o with
  | ok s =>
      have : ((tr ++ (k s).1).filter p) = (k s).1.filter p := by
        rw [List.filter_append, hr]; rfl
      simp only [bindO, this]
      exact hk s
  | err e s => left; exact hr
  | div => left; exact hr

/-- Within one `create()` run the gate is written at most once, and only
with the value `true`. -/
theorem create_setReady_writes (env : Env) (s : AWSState) :
    ((AWS.create env s).1).filter isSetReadyEv = [] ∨
    ((AWS.create env s).1).filter isSetReadyEv = [Event.setReady true] := by
  unfold AWS.create
  refine bindO_filter_nil _ (filter_setReady_nil_of_acts (csg_acts env s)) (fun s1 => ?_)
  refine bindO_filter_nil _ (filter_setReady_nil_of_acts (gkp_acts env s1)) (fun s2 => ?_)
  refine bindO_filter_nil _ (filter_setReady_nil_of_acts (cei_acts env s2)) (fun s3 => ?_)
  refine bindO_filter_nil _ (filter_setReady_nil_of_acts (connect_acts env s3)) (fun s4 => ?_)
  refine bindO_filter_nil _ (filter_setReady_nil_of_acts (install_acts env s4)) (fun s5 => ?_)
  refine bindO_filter_nil _ (filter_setReady_nil_of_acts (push_acts env s5)) (fun s6 => ?_)
  refine bindO_filter_nil _ (filter_setReady_nil_of_acts (infoStep_acts s6)) (fun s7 => ?_)
  right
  simp [isSetReadyEv]

/-- `create()` never assigns `unique_name`. -/
theorem create_no_assign (env : Env) (s : AWSState) :
    ((AWS.create env s).1).filter isAssignEv = [] := by
  unfold AWS.create
  have hlast : ∀ s7 : AWSState,
      (([Event.setReady true],
        Outcome.ok { s7 with base := (CloudInstance.set_ready_state true s7.base).2 }) :
          List Event × Outcome AWSState).1.filter isAssignEv = [] ∨
      (([Event.setReady true],
        Outcome.ok { s7 with base := (CloudInstance.set_ready_state true s7.base).2 }) :
          List Event × Outcome AWSState).1.filter isAssignEv = [Event.setReady true] := by
    intro s7; left; simp [isAssignEv]
  have h := bindO_filter_nil (Event.setReady true)
    (filter_assign_nil_of_acts (csg_acts env s)) (fun s1 =>
    bindO_filter_nil _ (filter_assign_nil_of_acts (gkp_acts env s1)) (fun s2 =>
    bindO_filter_nil _ (filter_assign_nil_of_acts (cei_acts env s2)) (fun s3 =>
    bindO_filter_nil _ (filter_assign_nil_of_acts (connect_acts env s3)) (fun s4 =>
    bindO_filter_nil _ (filter_assign_nil_of_acts (install_acts env s4)) (fun s5 =>
    bindO_filter_nil _ (filter_assign_nil_of_acts (push_acts env s5)) (fun s6 =>
    bindO_filter_nil _ (filter_assign_nil_of_acts (infoStep_acts s6)) (hlast)))))))
  rcases h with h | h
  · exact h
  · exfalso
    have := List.mem_filter.mp (h ▸ List.mem_singleton_self (Event.setReady true))
    simp [isAssignEv] at this

theorem bindO_keepf {σ α : Type} (f : σ → α) {r : List Event × Outcome σ}
    {k : σ → List Event × Outcome σ} {v : α}
    (hr : ∀ s1, (r.2).state? = some s1 → f s1 = v)
    (hk : ∀ s1 s2, ((k s1).2).state? = some s2 → f s2 = f s1) :
    ∀ s2, ((bindO r k).2).state? = some s2 → f s2 = v := by
  obtain ⟨tr, o⟩ := r
  cases o with
  | ok s1 =>
      intro s2 h2
      simp only [bindO] at h2
      rw [hk s1 s2 h2]
      exact hr s1 rfl
  | err e s1 =>
      intro s2 h2
      simp only [bindO, Outcome.state?, Option.some.injEq] at h2
      rw [← h2]
      exact hr s1 rfl
  | div =>
      intro s2 h2
      simp [bindO, Outcome.state?] at h2

theorem csg_keep (env : Env) (s : AWSState) :
    ∀ s1, ((AWS.create_security_group env s).2).state? = some s1 →
      s1.base.unique_name = s.base.unique_name := by
  unfold AWS.create_security_group
  cases env.createSecurityGroupR with
  | error msg => intro s1 h1; simp [Outcome.state?] at h1; rw [← h1]
  | ok gid =>
      cases env.authorizeIngressR <;>
        (intro s1 h1; simp [Outcome.state?] at h1; rw [← h1])

theorem gkp_keep (env : Env) (s : AWSState) :
    ∀ s1, ((AWS.generate_key_pair env s).2).state? = some s1 →
      s1.base.unique_name = s.base.unique_name := by
  unfold AWS.generate_key_pair
  cases env.createKeyPairR with
  | error msg => intro s1 h1; simp [Outcome.state?] at h1; rw [← h1]
  | ok key =>
      cases s.base.ssh_key_path <;>
        (intro s1 h1; simp [Outcome.state?] at h1; rw [← h1])

theorem cei_keep (env : Env) (s : AWSState) :
    ∀ s1, ((AWS.create_ec2_instance env s).2).state? = some s1 →
      s1.base.unique_name = s.base.unique_name := by
  unfold AWS.create_ec2_instance
  cases env.createInstancesR with
  | error msg => intro s1 h1; simp [Outcome.state?] at h1; rw [← h1]
  | ok iid =>
      cases pollIp env.publicIpAt env.pollFuel with
      | none => intro s1 h1; simp [Outcome.state?] at h1
      | some r => intro s1 h1; simp [Outcome.state?] at h1; rw [← h1]

theorem connect_keep (env : Env) (s : AWSState) :
    ∀ s1, ((liftBase (CloudInstance.connect env) s).2).state? = some s1 →
      s1.base.unique_name = s.base.unique_name := by
  unfold liftBase CloudInstance.connect
  cases env.connectOk <;>
    (intro s1 h1; simp [Outcome.state?] at h1; rw [← h1])

theorem install_keep (env : Env) (s : AWSState) :
    ∀ s1, ((liftBase (CloudInstance.install_cloud_dependencies env) s).2).state? = some s1 →
      s1.base.unique_name = s.base.unique_name := by
  unfold liftBase CloudInstance.install_cloud_dependencies execCmdStep bindO
  cases env.execOk "sudo apt install -y wireguard unzip" <;>
    cases env.execOk "sudo pip3 install wgconfig boto3 paramiko scp" <;>
      (intro s1 h1; simp [Outcome.state?] at h1; rw [← h1])

theorem push_keep (env : Env) (s : AWSState) :
    ∀ s1, ((liftBase (CloudInstance.push_ros_workspace env) s).2).state? = some s1 →
      s1.base.unique_name = s.base.unique_name := by
  unfold liftBase CloudInstance.push_ros_workspace execCmdStep sendFileStep bindO
  cases env.execOk "echo removing old workspace" <;>
    cases env.execOk "rm -rf ros_workspace.zip ros2_ws fog_ws" <;>
      cases env.sendOk "/tmp/ros_workspace.zip" "/home/ubuntu/" <;>
        cases env.execOk "unzip -q /home/ubuntu/ros_workspace.zip" <;>
          cases env.execOk "echo successfully extracted new workspace" <;>
            (intro s1 h1; simp [Outcome.state?] at h1; rw [← h1])

theorem infoStep_keep (s : AWSState) :
    ∀ s1, ((AWS.infoStep s).2).state? = some s1 →
      s1.base.unique_name = s.base.unique_name := by
  unfold AWS.infoStep AWS.info CloudInstance.info
  cases s.ec2_instance <;>
    (intro s1 h1; simp [Outcome.state?] at h1; rw [← h1])

/-- Once constructed, no pipeline step of `create()` ever changes
`unique_name` again. -/
theorem create_keep_unique (env : Env) (s : AWSState) :
    ∀ s', ((AWS.create env s).2).state? = some s' →
      s'.base.unique_name = s.base.unique_name := by
  unfold AWS.create
  refine bindO_keepf _ (csg_keep env s) (fun s1 => ?_)
  refine bindO_keepf _ (gkp_keep env s1) (fun s2 => ?_)
  refine bindO_keepf _ (cei_keep env s2) (fun s3 => ?_)
  refine bindO_keepf _ (connect_keep env s3) (fun s4 => ?_)
  refine bindO_keepf _ (install_keep env s4) (fun s5 => ?_)
  refine bindO_keepf _ (push_keep env s5) (fun s6 => ?_)
  refine bindO_keepf _ (infoStep_keep s6) (fun s7 => ?_)
  intro s8 h8
  simp [Outcome.state?] at h8
  rw [← h8]
  simp [CloudInstance.set_ready_state]

/-- C10: for every boolean `b`, `set_ready_state(b)` returns `b` and an
immediately following `get_ready_state()` returns `b`; the gate itself does
not enforce monotonicity — `set_ready_state(false)` after
`set_ready_state(true)` resets the gate to false. -/
theorem c10_set_get_gate (b : Bool) (s : CloudInstanceState) :
    (CloudInstance.set_ready_state b s).1 = b ∧
    CloudInstance.get_ready_state (CloudInstance.set_ready_state b s).2 = b ∧
    CloudInstance.get_ready_state
      (CloudInstance.set_ready_state false
        (CloudInstance.set_ready_state true s).2).2 = false := by
  simp [CloudInstance.set_ready_state, CloudInstance.get_ready_state]

/-- C1: the end-to-end `PreexistingBackend` scenario cannot occur on this
code: `RemoteMachine.__init__("10.0.0.5", "/tmp/k.pem")` (which accepts no
workspace arguments and runs the base constructor with its defaults) raises
`NameError` on `self.ip = public_ip` before `ssh_key_path`, the `REMOTE`
name, or the ready flag are set, so the object is left with
`public_ip = None`, `ros_workspace = "/home/root/fog_ws"` and a false
gate, and no `create()`/`info()` call ever happens. -/
theorem c1_remote_machine_init_raises (rand : Nat) :
    RemoteMachine.init "10.0.0.5" "/tmp/k.pem" rand =
      ([Event.assignUniqueName (toString rand),
        Event.makeDirs ("/tmp/fogros/" ++ "/" ++ toString rand ++ "/")],
       Outcome.err (PyError.nameError "public_ip")
         { public_ip := none
           ros_workspace := "/home/root/fog_ws"
           ssh_key_path := none
           unique_name := toString rand
           working_dir := "/tmp/fogros/" ++ "/" ++ toString rand ++ "/"
           ready_state := false
           scp_connected := false }) := by
  rfl

/-- C8: the address poll of `create_ec2_instance` — run after the
running-state wait — performs exactly `N` reads when the `N`-th read is the
first non-null one (never fewer: any completed poll's count is exactly one
past the first non-null index), and, having no iteration bound, it
terminates under no fuel at all when the address never becomes non-null. -/
theorem c8_address_poll (f : Nat → Option String) (n : Nat) (ip : String)
    (fuel m : Nat) (env : Env) (s : AWSState) (tr : List Event) (s' : AWSState) :
    ((∀ k, k < n → f k = none) → f n = some ip → n + 1 ≤ fuel →
        pollIp f fuel = some (n + 1, ip)) ∧
    (pollIp f fuel = some (m, ip) →
        1 ≤ m ∧ f (m - 1) = some ip ∧ ∀ k, k < m - 1 → f k = none) ∧
    ((∀ k, f k = none) → pollIp f fuel = none) ∧
    (AWS.create_ec2_instance env s = (tr, Outcome.ok s') →
      ∃ iid np ipp, env.createInstancesR = Except.ok iid ∧
        pollIp env.publicIpAt env.pollFuel = some (np, ipp) ∧
        s'.base.public_ip = some ipp ∧
        tr = [Event.botoCreateInstances s.aws_ami_image s.ec2_instance_type
                s.ec2_instance_disk_size s.ec2_key_name s.ec2_security_group_ids,
              Event.waitUntilRunning]) := by
  refine ⟨fun h1 h2 h3 => pollIp_exact h1 h2 h3,
          fun h => pollIp_some_inv h,
          fun h => pollIp_none_of_all_none h fuel,
          fun h => ?_⟩
  obtain ⟨iid, np, ipp, hi, hp, htr, hs⟩ := create_ec2_instance_ok h
  exact ⟨iid, np, ipp, hi, hp, by rw [hs], htr⟩

/-- C8 witness: with an address sequence that is null on reads 1 and 2 and
non-null on read 3, the loop completes with exactly 3 reads. -/
theorem c8_address_poll_witness :
    pollIp (fun k => if k = 2 then some "9.9.9.9" else none) 5 = some (3, "9.9.9.9") := by
  have h := (c8_address_poll (fun k => if k = 2 then some "9.9.9.9" else none)
    2 "9.9.9.9" 5 0 env0 s0 [] s0).1
  exact h (by intro k hk; interval_cases k <;> simp) (by simp) (by omega)

/-- C3: when the boto `create_security_group` call fails, `create()` aborts
during the security-group sub-step — but with a `NameError` (the handler
names `ClientError`, which `aws.py` never imports, and the code after the
`try` reads the then-unbound local `ec2_security_group_ids`), not with an
error carrying the failed sub-step name; the instance-creation call, which
would consume the never-set security-policy id, is not reached. -/
theorem c3_security_group_failure (env : Env) (s : AWSState) (msg : String)
    (h : env.createSecurityGroupR = Except.error msg)
    (hids : s.ec2_security_group_ids = none) :
    AWS.create env s =
      ([Event.botoDescribeVpcs,
        Event.botoCreateSecurityGroup s.ec2_security_group (env.vpcs.headD "")],
       Outcome.err (PyError.nameError "ClientError") s) ∧
    s.ec2_security_group_ids = none ∧
    (∀ e ∈ (AWS.create env s).1, ∀ ami itype disk key sgids,
        e ≠ Event.botoCreateInstances ami itype disk key sgids) := by
  have h1 : AWS.create env s =
      ([Event.botoDescribeVpcs,
        Event.botoCreateSecurityGroup s.ec2_security_group (env.vpcs.headD "")],
       Outcome.err (PyError.nameError "ClientError") s) := by
    unfold AWS.create AWS.create_security_group
    rw [h]
    simp [bindO]
  refine ⟨h1, hids, ?_⟩
  rw [h1]
  intro e he ami itype disk key sgids
  simp at he
  rcases he with rfl | rfl <;> simp

/-- C3 witness: a concrete failing run (access denied on the security-group
creation) on the freshly constructed state. -/
theorem c3_security_group_failure_witness :
    AWS.create { env0 with createSecurityGroupR := Except.error "AccessDenied" } s0 =
      ([Event.botoDescribeVpcs,
        Event.botoCreateSecurityGroup s0.ec2_security_group "vpc-0"],
       Outcome.err (PyError.nameError "ClientError") s0) ∧
    s0.ec2_security_group_ids = none := by
  obtain ⟨h1, h2, h3⟩ := c3_security_group_failure
    { env0 with createSecurityGroupR := Except.error "AccessDenied" } s0 "AccessDenied" rfl rfl
  exact ⟨h1, h2⟩

/-- The state in which the workspace-sync step starts (after backend
provisioning, session connect and dependency install); a failed sync
leaves it unchanged, since every sync sub-operation returns the object
state as-is. -/
def syncStartState (s : AWSState) (gid key iid ip : String) : AWSState :=
  { s with ec2_security_group_ids := some [gid]
           ssh_key := some key
           ec2_instance := some iid
           base := { s.base with public_ip := some ip, scp_connected := true } }

/-- The complete event list of the workspace-sync step
(`push_ros_workspace`); any run of the step, failing at whatever point,
emits a prefix of exactly these events. -/
def pushSyncEvents (s : AWSState) : List Event :=
  [Event.makeZip s.base.ros_workspace "/tmp/ros_workspace",
   Event.execCmd "echo removing old workspace",
   Event.execCmd "rm -rf ros_workspace.zip ros2_ws fog_ws",
   Event.sendFile "/tmp/ros_workspace.zip" "/home/ubuntu/",
   Event.execCmd "unzip -q /home/ubuntu/ros_workspace.zip",
   Event.execCmd "echo successfully extracted new workspace"]

/-- C5: if any remote operation of the workspace-sync step fails — the
stale-workspace removal, the archive transfer, the extraction, any of
them — while every earlier pipeline step succeeded, then `create()`
propagates that first error (the `RemoteExecutionError` of the failing
operation): the run's trace consists of the pre-sync events followed only
by events of the sync step itself, so no later step executes — no
overlay(VPN) transfer, no middleware(DDS) transfer, no info flush, no
gate write — and the partial state, whose readiness gate was never
touched, still reads false. -/
theorem c5_workspace_sync_failure_aborts
    (env : Env) (s : AWSState) (gid key kp iid : String) (n : Nat) (ip : String)
    (hg : env.createSecurityGroupR = Except.ok gid)
    (ha : env.authorizeIngressR = Except.ok ())
    (hk : env.createKeyPairR = Except.ok key)
    (hkp : s.base.ssh_key_path = some kp)
    (hi : env.createInstancesR = Except.ok iid)
    (hp : pollIp env.publicIpAt env.pollFuel = some (n, ip))
    (hc : env.connectOk = true)
    (he1 : env.execOk "sudo apt install -y wireguard unzip" = true)
    (he2 : env.execOk "sudo pip3 install wgconfig boto3 paramiko scp" = true)
    (hready : s.base.ready_state = false)
    (hfail : ¬ (env.execOk "echo removing old workspace" = true ∧
                env.execOk "rm -rf ros_workspace.zip ros2_ws fog_ws" = true ∧
                env.sendOk "/tmp/ros_workspace.zip" "/home/ubuntu/" = true ∧
                env.execOk "unzip -q /home/ubuntu/ros_workspace.zip" = true ∧
                env.execOk "echo successfully extracted new workspace" = true)) :
    ∃ trPush e,
      AWS.create env s =
        ([Event.botoDescribeVpcs,
          Event.botoCreateSecurityGroup s.ec2_security_group (env.vpcs.headD ""),
          Event.botoAuthorizeIngress gid,
          Event.botoCreateKeyPair s.ec2_key_name,
          Event.fsWrite kp (FileContent.text key),
          Event.botoCreateInstances s.aws_ami_image s.ec2_instance_type
            s.ec2_instance_disk_size s.ec2_key_name (some [gid]),
          Event.waitUntilRunning,
          Event.scpConnect (some ip) s.base.ssh_key_path,
          Event.execCmd "sudo apt install -y wireguard unzip",
          Event.execCmd "sudo pip3 install wgconfig boto3 paramiko scp"] ++ trPush,
         Outcome.err e (syncStartState s gid key iid ip)) ∧
      (∀ ev ∈ trPush, ev ∈ pushSyncEvents s) ∧
      (e = PyError.remoteExecutionError "echo removing old workspace" ∨
       e = PyError.remoteExecutionError "rm -rf ros_workspace.zip ros2_ws fog_ws" ∨
       e = PyError.remoteExecutionError "send /tmp/ros_workspace.zip" ∨
       e = PyError.remoteExecutionError "unzip -q /home/ubuntu/ros_workspace.zip" ∨
       e = PyError.remoteExecutionError "echo successfully extracted new workspace") ∧
      CloudInstance.get_ready_state (syncStartState s gid key iid ip).base = false ∧
      (∀ b, Event.setReady b ∉ (AWS.create env s).1) ∧
      Event.sendFile ("/tmp/fogros-cloud.conf" ++ s.base.unique_name)
        "/tmp/fogros-aws.conf" ∉ (AWS.create env s).1 ∧
      Event.sendFile "/tmp/cyclonedds.xml" "~/cyclonedds.xml" ∉ (AWS.create env s).1 ∧
      (∀ d, Event.fsWrite (s.base.working_dir ++ "info") (FileContent.json d) ∉
        (AWS.create env s).1) := by
  cases h3 : env.execOk "echo removing old workspace" with
  | false =>
      have hcr : AWS.create env s =
          ([Event.botoDescribeVpcs,
            Event.botoCreateSecurityGroup s.ec2_security_group (env.vpcs.headD ""),
            Event.botoAuthorizeIngress gid,
            Event.botoCreateKeyPair s.ec2_key_name,
            Event.fsWrite kp (FileContent.text key),
            Event.botoCreateInstances s.aws_ami_image s.ec2_instance_type
              s.ec2_instance_disk_size s.ec2_key_name (some [gid]),
            Event.waitUntilRunning,
            Event.scpConnect (some ip) s.base.ssh_key_path,
            Event.execCmd "sudo apt install -y wireguard unzip",
            Event.execCmd "sudo pip3 install wgconfig boto3 paramiko scp"] ++
           [Event.makeZip s.base.ros_workspace "/tmp/ros_workspace",
            Event.execCmd "echo removing old workspace"],
           Outcome.err (PyError.remoteExecutionError "echo removing old workspace")
             (syncStartState s gid key iid ip)) := by
        simp [AWS.create, AWS.create_security_group, AWS.generate_key_pair,
          AWS.create_ec2_instance, liftBase, CloudInstance.connect,
          CloudInstance.install_cloud_dependencies, CloudInstance.push_ros_workspace,
          execCmdStep, sendFileStep, bindO, hg, ha, hk, hkp, hi, hp, hc,
          he1, he2, h3, syncStartState]
      refine ⟨_, _, hcr, ?_, Or.inl rfl, ?_, ?_, ?_, ?_, ?_⟩
      · simp [pushSyncEvents]
      · simp [CloudInstance.get_ready_state, syncStartState, hready]
      · intro b; rw [hcr]; simp
      · rw [hcr]; simp
      · rw [hcr]; simp
      · intro d; rw [hcr]; simp
  | true =>
  cases h4 : env.execOk "rm -rf ros_workspace.zip ros2_ws fog_ws" with
  | false =>
      have hcr : AWS.create env s =
          ([Event.botoDescribeVpcs,
            Event.botoCreateSecurityGroup s.ec2_security_group (env.vpcs.headD ""),
            Event.botoAuthorizeIngress gid,
            Event.botoCreateKeyPair s.ec2_key_name,
            Event.fsWrite kp (FileContent.text key),
            Event.botoCreateInstances s.aws_ami_image s.ec2_instance_type
              s.ec2_instance_disk_size s.ec2_key_name (some [gid]),
            Event.waitUntilRunning,
            Event.scpConnect (some ip) s.base.ssh_key_path,
            Event.execCmd "sudo apt install -y wireguard unzip",
            Event.execCmd "sudo pip3 install wgconfig boto3 paramiko scp"] ++
           [Event.makeZip s.base.ros_workspace "/tmp/ros_workspace",
            Event.execCmd "echo removing old workspace",
            Event.execCmd "rm -rf ros_workspace.zip ros2_ws fog_ws"],
           Outcome.err (PyError.remoteExecutionError "rm -rf ros_workspace.zip ros2_ws fog_ws")
             (syncStartState s gid key iid ip)) := by
        simp [AWS.create, AWS.create_security_group, AWS.generate_key_pair,
          AWS.create_ec2_instance, liftBase, CloudInstance.connect,
          CloudInstance.install_cloud_dependencies, CloudInstance.push_ros_workspace,
          execCmdStep, sendFileStep, bindO, hg, ha, hk, hkp, hi, hp, hc,
          he1, he2, h3, h4, syncStartState]
      refine ⟨_, _, hcr, ?_, Or.inr (Or.inl rfl), ?_, ?_, ?_, ?_, ?_⟩
      · simp [pushSyncEvents]
      · simp [CloudInstance.get_ready_state, syncStartState, hready]
      · intro b; rw [hcr]; simp
      · rw [hcr]; simp
      · rw [hcr]; simp
      · intro d; rw [hcr]; simp
  | true =>
  cases h5 : env.sendOk "/tmp/ros_workspace.zip" "/home/ubuntu/" with
  | false =>
      have hcr : AWS.create env s =
          ([Event.botoDescribeVpcs,
            Event.botoCreateSecurityGroup s.ec2_security_group (env.vpcs.headD ""),
            Event.botoAuthorizeIngress gid,
            Event.botoCreateKeyPair s.ec2_key_name,
            Event.fsWrite kp (FileContent.text key),
            Event.botoCreateInstances s.aws_ami_image s.ec2_instance_type
              s.ec2_instance_disk_size s.ec2_key_name (some [gid]),
            Event.waitUntilRunning,
            Event.scpConnect (some ip) s.base.ssh_key_path,
            Event.execCmd "sudo apt install -y wireguard unzip",
            Event.execCmd "sudo pip3 install wgconfig boto3 paramiko scp"] ++
           [Event.makeZip s.base.ros_workspace "/tmp/ros_workspace",
            Event.execCmd "echo removing old workspace",
            Event.execCmd "rm -rf ros_workspace.zip ros2_ws fog_ws",
            Event.sendFile "/tmp/ros_workspace.zip" "/home/ubuntu/"],
           Outcome.err (PyError.remoteExecutionError "send /tmp/ros_workspace.zip")
             (syncStartState s gid key iid ip)) := by
        simp [AWS.create, AWS.create_security_group, AWS.generate_key_pair,
          AWS.create_ec2_instance, liftBase, CloudInstance.connect,
          CloudInstance.install_cloud_dependencies, CloudInstance.push_ros_workspace,
          execCmdStep, sendFileStep, bindO, hg, ha, hk, hkp, hi, hp, hc,
          he1, he2, h3, h4, h5, syncStartState]
      refine ⟨_, _, hcr, ?_, Or.inr (Or.inr (Or.inl rfl)), ?_, ?_, ?_, ?_, ?_⟩
      · simp [pushSyncEvents]
      · simp [CloudInstance.get_ready_state, syncStartState, hready]
      · intro b; rw [hcr]; simp
      · rw [hcr]; simp
      · rw [hcr]; simp
      · intro d; rw [hcr]; simp
  | true =>
  cases h6 : env.execOk "unzip -q /home/ubuntu/ros_workspace.zip" with
  | false =>
      have hcr : AWS.create env s =
          ([Event.botoDescribeVpcs,
            Event.botoCreateSecurityGroup s.ec2_security_group (env.vpcs.headD ""),
            Event.botoAuthorizeIngress gid,
            Event.botoCreateKeyPair s.ec2_key_name,
            Event.fsWrite kp (FileContent.text key),
            Event.botoCreateInstances s.aws_ami_image s.ec2_instance_type
              s.ec2_instance_disk_size s.ec2_key_name (some [gid]),
            Event.waitUntilRunning,
            Event.scpConnect (some ip) s.base.ssh_key_path,
            Event.execCmd "sudo apt install -y wireguard unzip",
            Event.execCmd "sudo pip3 install wgconfig boto3 paramiko scp"] ++
           [Event.makeZip s.base.ros_workspace "/tmp/ros_workspace",
            Event.execCmd "echo removing old workspace",
            Event.execCmd "rm -rf ros_workspace.zip ros2_ws fog_ws",
            Event.sendFile "/tmp/ros_workspace.zip" "/home/ubuntu/",
            Event.execCmd "unzip -q /home/ubuntu/ros_workspace.zip"],
           Outcome.err (PyError.remoteExecutionError "unzip -q /home/ubuntu/ros_workspace.zip")
             (syncStartState s gid key iid ip)) := by
        simp [AWS.create, AWS.create_security_group, AWS.generate_key_pair,
          AWS.create_ec2_instance, liftBase, CloudInstance.connect,
          CloudInstance.install_cloud_dependencies, CloudInstance.push_ros_workspace,
          execCmdStep, sendFileStep, bindO, hg, ha, hk, hkp, hi, hp, hc,
          he1, he2, h3, h4, h5, h6, syncStartState]
      refine ⟨_, _, hcr, ?_, Or.inr (Or.inr (Or.inr (Or.inl rfl))), ?_, ?_, ?_, ?_, ?_⟩
      · simp [pushSyncEvents]
      · simp [CloudInstance.get_ready_state, syncStartState, hready]
      · intro b; rw [hcr]; simp
      · rw [hcr]; simp
      · rw [hcr]; simp
      · intro d; rw [hcr]; simp
  | true =>
  cases h7 : env.execOk "echo successfully extracted new workspace" with
  | false =>
      have hcr : AWS.create env s =
          ([Event.botoDescribeVpcs,
            Event.botoCreateSecurityGroup s.ec2_security_group (env.vpcs.headD ""),
            Event.botoAuthorizeIngress gid,
            Event.botoCreateKeyPair s.ec2_key_name,
            Event.fsWrite kp (FileContent.text key),
            Event.botoCreateInstances s.aws_ami_image s.ec2_instance_type
              s.ec2_instance_disk_size s.ec2_key_name (some [gid]),
            Event.waitUntilRunning,
            Event.scpConnect (some ip) s.base.ssh_key_path,
            Event.execCmd "sudo apt install -y wireguard unzip",
            Event.execCmd "sudo pip3 install wgconfig boto3 paramiko scp"] ++
           [Event.makeZip s.base.ros_workspace "/tmp/ros_workspace",
            Event.execCmd "echo removing old workspace",
            Event.execCmd "rm -rf ros_workspace.zip ros2_ws fog_ws",
            Event.sendFile "/tmp/ros_workspace.zip" "/home/ubuntu/",
            Event.execCmd "unzip -q /home/ubuntu/ros_workspace.zip",
            Event.execCmd "echo successfully extracted new workspace"],
           Outcome.err (PyError.remoteExecutionError "echo successfully extracted new workspace")
             (syncStartState s gid key iid ip)) := by
        simp [AWS.create, AWS.create_security_group, AWS.generate_key_pair,
          AWS.create_ec2_instance, liftBase, CloudInstance.connect,
          CloudInstance.install_cloud_dependencies, CloudInstance.push_ros_workspace,
          execCmdStep, sendFileStep, bindO, hg, ha, hk, hkp, hi, hp, hc,
          he1, he2, h3, h4, h5, h6, h7, syncStartState]
      refine ⟨_, _, hcr, ?_, Or.inr (Or.inr (Or.inr (Or.inr rfl))), ?_, ?_, ?_, ?_, ?_⟩
      · simp [pushSyncEvents]
      · simp [CloudInstance.get_ready_state, syncStartState, hready]
      · intro b; rw [hcr]; simp
      · rw [hcr]; simp
      · rw [hcr]; simp
      · intro d; rw [hcr]; simp
  | true => exact absurd ⟨h3, h4, h5, h6, h7⟩ hfail

/-- An oracle on which everything succeeds except the remote workspace
extraction command. -/
def env5 : Env :=
  { env0 with execOk := fun c => c != "unzip -q /home/ubuntu/ros_workspace.zip" }

/-- C5 witness: a concrete run whose workspace extraction fails returns
abnormally, the sync-start partial state reads a false gate, and the run
never wrote the gate. -/
theorem c5_workspace_sync_failure_witness :
    Outcome.isOk (AWS.create env5 s0).2 = false ∧
    CloudInstance.get_ready_state
      (syncStartState s0 "sg-1" "PRIVATEKEY" "i-123" "3.3.3.3").base = false ∧
    Event.setReady true ∉ (AWS.create env5 s0).1 := by
  obtain ⟨trPush, e, h1, hsub, herr, hgate, hnoset, hvpn, hdds, hwrite⟩ :=
    c5_workspace_sync_failure_aborts env5 s0 "sg-1" "PRIVATEKEY"
      "/tmp/fogros//42/FogROSKEYAWS7.pem" "i-123" 1 "3.3.3.3"
      rfl rfl rfl rfl rfl rfl rfl (by decide) (by decide) rfl (by decide)
  refine ⟨?_, hgate, hnoset true⟩
  rw [h1]
  rfl

/-- C2 counterexample: a fully successful `create()` run whose trace
contains neither the overlay(VPN) transfer, nor the wireguard activation
command, nor the middleware(DDS) config transfer — so a successful run
does not pass through the overlay / middleware / workload-launch steps. -/
theorem c2_counterexample :
    (AWS.create env0 s0).2 =
      Outcome.ok (finalStateOk s0 "sg-1" "PRIVATEKEY" "i-123" "3.3.3.3") ∧
    Event.sendFile ("/tmp/fogros-cloud.conf" ++ s0.base.unique_name)
      "/tmp/fogros-aws.conf" ∉ (AWS.create env0 s0).1 ∧
    Event.execCmd "sudo cp /tmp/fogros-aws.conf /etc/wireguard/wg0.conf && sudo chmod 600 /etc/wireguard/wg0.conf && sudo wg-quick up wg0" ∉
      (AWS.create env0 s0).1 ∧
    Event.sendFile "/tmp/cyclonedds.xml" "~/cyclonedds.xml" ∉ (AWS.create env0 s0).1 := by
  refine ⟨rfl, ?_, ?_, ?_⟩ <;> decide

/-- C2 (amended): every successful `create()` run executes, in strict
source order and each step only after all earlier ones succeeded:
security-group creation, key-pair generation, EC2 instance creation (with
the running wait and address poll), session connect, the two dependency
installs, the workspace sync, the double info flush, and finally the gate
write — and nothing else: the overlay(VPN), middleware(DDS) and
workload-launch methods are not invoked by `create()`. -/
theorem c2_success_pipeline_order {env : Env} {s : AWSState} {tr : List Event}
    {s' : AWSState} (h : AWS.create env s = (tr, Outcome.ok s')) :
    ∃ gid key kp iid n ip,
      env.createSecurityGroupR = Except.ok gid ∧
      env.createKeyPairR = Except.ok key ∧
      s.base.ssh_key_path = some kp ∧
      env.createInstancesR = Except.ok iid ∧
      pollIp env.publicIpAt env.pollFuel = some (n, ip) ∧
      env.connectOk = true ∧
      tr = expectedCreateTrace s (env.vpcs.headD "") gid key iid ip kp ∧
      s' = finalStateOk s gid key iid ip :=
  create_ok_shape h

/-- C2 witness: the successful run on the all-ok oracle has exactly the
expected trace. -/
theorem c2_success_pipeline_order_witness :
    (AWS.create env0 s0).1 =
      expectedCreateTrace s0 "vpc-0" "sg-1" "PRIVATEKEY" "i-123" "3.3.3.3"
        "/tmp/fogros//42/FogROSKEYAWS7.pem" := by
  obtain ⟨gid, key, kp, iid, n, ip, hg, hk, hkp, hi, hp, hc, htr, hs⟩ :=
    c2_success_pipeline_order
      (rfl : AWS.create env0 s0 = ((AWS.create env0 s0).1,
        Outcome.ok (finalStateOk s0 "sg-1" "PRIVATEKEY" "i-123" "3.3.3.3")))
  have hgid : "sg-1" = gid := Except.ok.inj hg
  have hkey : "PRIVATEKEY" = key := Except.ok.inj hk
  have hkp2 : "/tmp/fogros//42/FogROSKEYAWS7.pem" = kp := Option.some.inj hkp
  have hiid : "i-123" = iid := Except.ok.inj hi
  have hip : ((1 : Nat), "3.3.3.3") = (n, ip) := Option.some.inj hp
  injection hip with hn hip2
  subst hgid hkey hkp2 hiid hip2
  exact htr

/-- C6: within one orchestration run (`create()`), the gate is written at
most once and only with `true` — never reset — and on a successful run the
final state answers `get_ready_state() = true` (and, gate reads being
pure, every subsequent read within the run stays `true`). -/
theorem c6_gate_monotone_per_run (env : Env) (s : AWSState) :
    (((AWS.create env s).1).filter isSetReadyEv = [] ∨
     ((AWS.create env s).1).filter isSetReadyEv = [Event.setReady true]) ∧
    ∀ s', (AWS.create env s).2 = Outcome.ok s' →
      CloudInstance.get_ready_state s'.base = true := by
  refine ⟨create_setReady_writes env s, ?_⟩
  intro s' h
  have h2 : AWS.create env s = ((AWS.create env s).1, Outcome.ok s') := by
    have : AWS.create env s = ((AWS.create env s).1, (AWS.create env s).2) := rfl
    rw [this, h]
  obtain ⟨gid, key, kp, iid, n, ip, _, _, _, _, _, _, _, hs⟩ := create_ok_shape h2
  rw [hs]
  simp [finalStateOk, CloudInstance.get_ready_state]

/-- C6 witness: on the all-ok oracle the run writes the gate exactly once,
with `true`, and the final state reads back `true`. -/
theorem c6_gate_monotone_witness :
    (((AWS.create env0 s0).1).filter isSetReadyEv = [] ∨
     ((AWS.create env0 s0).1).filter isSetReadyEv = [Event.setReady true]) ∧
    CloudInstance.get_ready_state
      (finalStateOk s0 "sg-1" "PRIVATEKEY" "i-123" "3.3.3.3").base = true := by
  obtain ⟨h1, h2⟩ := c6_gate_monotone_per_run env0 s0
  exact ⟨h1, h2 _ rfl⟩

/-- C7 counterexample: on a concrete successful run the very last trace
event is the gate write — the info file is flushed before `Ready` and is
not written again after reaching `Ready`. -/
theorem c7_counterexample :
    (AWS.create env0 s0).2 =
      Outcome.ok (finalStateOk s0 "sg-1" "PRIVATEKEY" "i-123" "3.3.3.3") ∧
    ((AWS.create env0 s0).1).getLast? = some (Event.setReady true) := by
  exact ⟨rfl, rfl⟩

/-- Recognizes writes of a JSON object to the given path. -/
def isInfoJsonWrite (path : String) : Event → Bool
  | .fsWrite p (.json _) => p == path
  | _ => false

/-- C7 (amended): on every successful `create()` run the trace decomposes
as: the ten pre-sync events, then the six workspace-sync events, then —
immediately before the gate write, which is the last event of the run —
the single info flush: the base five-key JSON object immediately
overwritten by the full ten-key object whose keys are `name,
ros_workspace, working_dir, ssh_key_path, public_ip, ec2_region,
ec2_instance_type, disk_size, aws_ami_image, ec2_instance_id` with values
from the record.  These two consecutive writes are the only JSON writes
to `<working_dir>info` anywhere in the run — the file is flushed once,
after the workspace sync and before `Ready`, not after backend
provisioning and not again after reaching `Ready`. -/
theorem c7_info_flush {env : Env} {s : AWSState} {tr : List Event}
    {s' : AWSState} (h : AWS.create env s = (tr, Outcome.ok s')) :
    ∃ gid key kp iid ip,
      tr = ([Event.botoDescribeVpcs,
             Event.botoCreateSecurityGroup s.ec2_security_group (env.vpcs.headD ""),
             Event.botoAuthorizeIngress gid,
             Event.botoCreateKeyPair s.ec2_key_name,
             Event.fsWrite kp (FileContent.text key),
             Event.botoCreateInstances s.aws_ami_image s.ec2_instance_type
               s.ec2_instance_disk_size s.ec2_key_name (some [gid]),
             Event.waitUntilRunning,
             Event.scpConnect (some ip) s.base.ssh_key_path,
             Event.execCmd "sudo apt install -y wireguard unzip",
             Event.execCmd "sudo pip3 install wgconfig boto3 paramiko scp"] ++
            pushSyncEvents s ++
            [Event.fsWrite (s.base.working_dir ++ "info")
               (FileContent.json (infoDict5 s ip)),
             Event.fsWrite (s.base.working_dir ++ "info")
               (FileContent.json (infoDict10 s ip iid)),
             Event.setReady true]) ∧
      tr.filter (isInfoJsonWrite (s.base.working_dir ++ "info")) =
        [Event.fsWrite (s.base.working_dir ++ "info")
           (FileContent.json (infoDict5 s ip)),
         Event.fsWrite (s.base.working_dir ++ "info")
           (FileContent.json (infoDict10 s ip iid))] ∧
      tr.getLast? = some (Event.setReady true) ∧
      (infoDict10 s ip iid).map Prod.fst =
        ["name", "ros_workspace", "working_dir", "ssh_key_path", "public_ip",
         "ec2_region", "ec2_instance_type", "disk_size", "aws_ami_image",
         "ec2_instance_id"] := by
  obtain ⟨gid, key, kp, iid, n, ip, hg, hk, hkp, hi, hp, hc, htr, hs⟩ := create_ok_shape h
  refine ⟨gid, key, kp, iid, ip, ?_, ?_, ?_, ?_⟩
  · rw [htr]; simp [expectedCreateTrace, pushSyncEvents]
  · rw [htr]; simp [expectedCreateTrace, isInfoJsonWrite]
  · rw [htr]; rfl
  · simp [infoDict10, infoDict5]

/-- C7 witness: the concrete successful run ends in the gate write. -/
theorem c7_info_flush_witness :
    ((AWS.create env0 s0).1).getLast? = some (Event.setReady true) := by
  obtain ⟨gid, key, kp, iid, ip, htr, hfilter, hlast, hkeys⟩ := c7_info_flush
    (rfl : AWS.create env0 s0 = ((AWS.create env0 s0).1,
      Outcome.ok (finalStateOk s0 "sg-1" "PRIVATEKEY" "i-123" "3.3.3.3")))
  exact hlast

/-- C4 counterexample: in a concrete `AWS` construction (base random draw
42, subclass draw 7), `unique_name` is assigned twice with two different
values during construction, and the derived `working_dir` is keyed by the
discarded base-constructor name `42`, not by the final `unique_name`
`AWS7`. -/
theorem c4_counterexample :
    ((AWS.fields 42 7 "us-west-1" "t2.micro" 30 "ami-08b3b42af12192fe6"
        "/home/root/fog_ws" "/tmp/fogros/").2).filter isAssignEv =
      [Event.assignUniqueName "42", Event.assignUniqueName "AWS7"] ∧
    s0.base.unique_name = "AWS7" ∧
    s0.base.working_dir = "/tmp/fogros//42/" ∧
    s0.base.working_dir ≠ "/tmp/fogros/" ++ "/" ++ s0.base.unique_name ++ "/" := by
  refine ⟨rfl, rfl, rfl, by decide⟩

/-- C4 (amended): `unique_name` is assigned twice during construction —
once by the base constructor (a bare random number, from which
`working_dir` is derived) and once, overwriting it, by the `AWS`
constructor (`"AWS" ++ draw`) — and never again afterwards: no `create()`
step assigns it, and every state a `create()` run can leave behind keeps
it unchanged; the final name keys the security-group name, the key-pair
name and (jointly with the old-name-keyed `working_dir`) `ssh_key_path`. -/
theorem c4_unique_name_lifecycle (r1 r2 : Nat) (region itype : String)
    (disk : Nat) (ami ws wdb : String) (env : Env) :
    ((AWS.fields r1 r2 region itype disk ami ws wdb).2).filter isAssignEv =
      [Event.assignUniqueName (toString r1),
       Event.assignUniqueName ("AWS" ++ toString r2)] ∧
    (AWS.fields r1 r2 region itype disk ami ws wdb).1.base.unique_name =
      "AWS" ++ toString r2 ∧
    (AWS.fields r1 r2 region itype disk ami ws wdb).1.ec2_security_group =
      "FOGROS_SECURITY_GROUP" ++
        (AWS.fields r1 r2 region itype disk ami ws wdb).1.base.unique_name ∧
    (AWS.fields r1 r2 region itype disk ami ws wdb).1.ec2_key_name =
      "FogROSKEY" ++ (AWS.fields r1 r2 region itype disk ami ws wdb).1.base.unique_name ∧
    (AWS.fields r1 r2 region itype disk ami ws wdb).1.base.ssh_key_path =
      some ((AWS.fields r1 r2 region itype disk ami ws wdb).1.base.working_dir ++
        (AWS.fields r1 r2 region itype disk ami ws wdb).1.ec2_key_name ++ ".pem") ∧
    (AWS.fields r1 r2 region itype disk ami ws wdb).1.base.working_dir =
      wdb ++ "/" ++ toString r1 ++ "/" ∧
    ((AWS.create env (AWS.fields r1 r2 region itype disk ami ws wdb).1).1).filter
      isAssignEv = [] ∧
    ∀ s', ((AWS.create env
        (AWS.fields r1 r2 region itype disk ami ws wdb).1).2).state? = some s' →
      s'.base.unique_name =
        (AWS.fields r1 r2 region itype disk ami ws wdb).1.base.unique_name := by
  refine ⟨?_, rfl, rfl, rfl, rfl, rfl, create_no_assign env _, create_keep_unique env _⟩
  simp [AWS.fields, CloudInstance.init, isAssignEv]

/-- C4 witness: the concrete construction and all-ok run. -/
theorem c4_unique_name_lifecycle_witness :
    s0.base.unique_name = "AWS7" ∧
    ((AWS.create env0 s0).1).filter isAssignEv = [] ∧
    (finalStateOk s0 "sg-1" "PRIVATEKEY" "i-123" "3.3.3.3").base.unique_name =
      s0.base.unique_name := by
  obtain ⟨h1, h2, h3, h4, h5, h6, h7, h8⟩ := c4_unique_name_lifecycle 42 7
    "us-west-1" "t2.micro" 30 "ami-08b3b42af12192fe6" "/home/root/fog_ws"
    "/tmp/fogros/" env0
  exact ⟨h2, h7, h8 _ rfl⟩

/-- C9: `AWS.__init__` runs `self.create()` as its final statement: a
normally returned constructor value is exactly a `create()` success on the
freshly assigned fields — same final state, the construction events
followed by the pipeline events — and its gate is already true; there is
no constructed `AWS` object on which `create()` has not been attempted. -/
theorem c9_init_runs_create (env : Env) (r1 r2 : Nat) (region itype : String)
    (disk : Nat) (ami ws wdb : String) (tr : List Event) (s' : AWSState)
    (h : AWS.init env r1 r2 region itype disk ami ws wdb = (tr, Outcome.ok s')) :
    (∃ tr', AWS.create env (AWS.fields r1 r2 region itype disk ami ws wdb).1 =
        (tr', Outcome.ok s') ∧
      tr = (AWS.fields r1 r2 region itype disk ami ws wdb).2 ++ tr') ∧
    s'.base.ready_state = true := by
  unfold AWS.init at h
  obtain ⟨t1, s1, t2, h1, h2, htr⟩ := bindO_eq_ok h
  simp only [Prod.mk.injEq, Outcome.ok.injEq] at h1
  obtain ⟨ht1, hs1⟩ := h1
  constructor
  · exact ⟨t2, by rw [← hs1] at h2; exact h2, by rw [htr, ht1]⟩
  · rw [← hs1] at h2
    obtain ⟨gid, key, kp, iid, n, ip, _, _, _, _, _, _, _, hs⟩ := create_ok_shape h2
    rw [hs]
    simp [finalStateOk]

/-- C9 witness: the concrete constructor run on the all-ok oracle returns
normally with a true gate. -/
theorem c9_init_runs_create_witness :
    (finalStateOk s0 "sg-1" "PRIVATEKEY" "i-123" "3.3.3.3").base.ready_state = true := by
  obtain ⟨-, hready⟩ := c9_init_runs_create env0 42 7 "us-west-1" "t2.micro" 30
    "ami-08b3b42af12192fe6" "/home/root/fog_ws" "/tmp/fogros/" _ _
    (rfl : AWS.init env0 42 7 "us-west-1" "t2.micro" 30 "ami-08b3b42af12192fe6"
      "/home/root/fog_ws" "/tmp/fogros/" =
      ((AWS.init env0 42 7 "us-west-1" "t2.micro" 30 "ami-08b3b42af12192fe6"
        "/home/root/fog_ws" "/tmp/fogros/").1,
       Outcome.ok (finalStateOk s0 "sg-1" "PRIVATEKEY" "i-123" "3.3.3.3")))
  exact hready

end FogROS2
